import Mathlib

/-!
Shallow embedding of the client-side state-reconciliation engine of the
sentiment dashboard (frontend/src/components/Dashboard.jsx).

The component keeps six pieces of React state: `distributionData`,
`trendData`, `recentPosts`, `metrics`, `connectionStatus`, `lastUpdate`.
Two effects drive it: `fetchData` (the one-shot REST snapshot load) and a
WebSocket effect (`connectWebSocket` with `onopen`/`onclose`/`onmessage`
handlers, a 3000 ms reconnect timer scheduled from `onclose`, and a cleanup
that calls `ws.current.close()`).

The embedding models:
  - `onmessage` as a pure function from the receipt time, the (possibly
    unparseable) frame and the current state to the state after the handler
    ran together with the JavaScript exception, if any, that escaped the
    handler (state updates issued before the throw still commit, matching
    React's queued `setState` calls);
  - `fetchData` as a pure function from the three request outcomes to the
    state update, with the source's sequential `await`s inside one
    `try/catch`: the first failure aborts the rest of the block;
  - the connection lifecycle (`connectWebSocket`, `onopen`, `onclose`, the
    reconnect `setTimeout`, and the effect cleanup) as a labelled transition
    system `ConnStep` over a small `ConnSystem` record.
-/

namespace SentimentPlatform

/-- Metrics object as used by `useState({ total: 0, positive: 0, negative: 0,
neutral: 0 })`, `setMetrics({total: distRes.data.total, positive: ...})` and
the `metrics_update` payload's `last_24_hours` field. -/
structure Metrics where
  total : Nat
  positive : Nat
  negative : Nat
  neutral : Nat
deriving DecidableEq, Repr

/-- A classified post as rendered by the live feed (fields read in the JSX:
`post_id`, `author`, `content`, `source`, `sentiment_label`,
`confidence_score`, `created_at`).  The reconciler itself treats the post
payload opaquely. -/
structure Post where
  post_id : Nat
  author : String
  content : String
  source : String
  sentiment_label : String
  confidence_score : Rat
  created_at : Nat
deriving DecidableEq, Repr

/-- One hourly bucket of the trend response
(`GET /api/sentiment/aggregate?period=hour`), as plotted by SentimentChart
(`positive_count`, `negative_count`, `neutral_count` keyed by `timestamp`). -/
structure TrendPoint where
  timestamp : Nat
  positive_count : Nat
  negative_count : Nat
  neutral_count : Nat
deriving DecidableEq, Repr

/-- Connection status values: `useState('connecting')`, `onopen` sets
`'connected'`, `onclose` sets `'disconnected'`. -/
inductive ConnStatus
  | connecting
  | connected
  | disconnected
deriving DecidableEq, Repr

/-- One entry of the `distributionData` state array,
`{ name: 'Positive', value: dist.positive }` and so on. -/
structure DistEntry where
  name : String
  value : Nat
deriving DecidableEq, Repr

/-- The `data` field of a parsed push frame.  A `new_post` frame carries a
post; a `metrics_update` frame carries an object whose `last_24_hours` field
is a metrics snapshot.  The `new_post` branch of the reconciler prepends
`message.data` verbatim, whatever it is. -/
inductive FrameData
  | postData (p : Post)
  | metricsData (last_24_hours : Metrics)
deriving DecidableEq, Repr

/-- A raw WebSocket message: either unparseable text (`JSON.parse` throws) or
a parsed `{type, data}` pair. -/
inductive RawMsg
  | malformed
  | frame (type_ : String) (data : FrameData)
deriving DecidableEq, Repr

/-- JavaScript exceptions that can escape the `onmessage` handler:
`JSON.parse` throwing on malformed text, or a TypeError from reading a field
of `undefined`. -/
inductive JsError
  | parseError
  | typeError
deriving DecidableEq, Repr

/-- The Dashboard component's state (the ViewModel): the six `useState`
hooks of Dashboard.jsx.  `metrics` is `Option Metrics` because
`setMetrics(message.data.last_24_hours)` can store `undefined` when the
payload lacks that field. -/
structure DashboardState where
  distributionData : List DistEntry
  trendData : List TrendPoint
  recentPosts : List FrameData
  metrics : Option Metrics
  connectionStatus : ConnStatus
  lastUpdate : Nat
deriving DecidableEq, Repr

/-- Initial state of the six hooks: empty arrays, zero metrics,
`'connecting'`, and `new Date()` (the session start time `t0`). -/
def initialState (t0 : Nat) : DashboardState :=
  { distributionData := []
    trendData := []
    recentPosts := []
    metrics := some { total := 0, positive := 0, negative := 0, neutral := 0 }
    connectionStatus := ConnStatus.connecting
    lastUpdate := t0 }

/-- The `[{name:'Positive',...},{name:'Negative',...},{name:'Neutral',...}]`
array built at lines 39-43 and 97-101 of Dashboard.jsx. -/
def distEntries (positive negative neutral : Nat) : List DistEntry :=
  [⟨"Positive", positive⟩, ⟨"Negative", negative⟩, ⟨"Neutral", neutral⟩]

/-- The `ws.current.onmessage` handler (Dashboard.jsx lines 87-103).
`JSON.parse(event.data)` throws on malformed input before any state update.
Otherwise `setLastUpdate(new Date())` runs for every parsed message, then the
branch on `message.type`: `new_post` prepends `message.data` and slices to
50; `metrics_update` reads `message.data.last_24_hours`, stores it with
`setMetrics`, and rebuilds `distributionData` from it (if `last_24_hours` is
absent the read of `data.positive` throws a TypeError after
`setMetrics(undefined)` was already queued); any other type falls through.
Returns the state after the handler together with the escaped exception, if
any. -/
def onmessage (now : Nat) (raw : RawMsg) (s : DashboardState) :
    DashboardState × Option JsError :=
  match raw with
  | RawMsg.malformed => (s, some JsError.parseError)
  | RawMsg.frame t d =>
    let s1 := { s with lastUpdate := now }
    if t = "new_post" then
      ({ s1 with recentPosts := (d :: s1.recentPosts).take 50 }, none)
    else if t = "metrics_update" then
      match d with
      | FrameData.metricsData m =>
        ({ s1 with
            metrics := some m
            distributionData := distEntries m.positive m.negative m.neutral },
         none)
      | FrameData.postData _ =>
        ({ s1 with metrics := none }, some JsError.typeError)
    else
      (s1, none)

/-- State after the `onmessage` handler ran on one raw message (the escaped
exception, if any, is swallowed by the browser's event loop and the session
continues from the committed state). -/
def step (now : Nat) (raw : RawMsg) (s : DashboardState) : DashboardState :=
  (onmessage now raw s).1

/-- Deliver a sequence of timed raw messages in order. -/
def applyFrames : List (Nat × RawMsg) → DashboardState → DashboardState
  | [], s => s
  | (t, r) :: rest, s => applyFrames rest (step t r s)

/-- Body of the distribution response
(`GET /api/sentiment/distribution?hours=24`): a `distribution` object with
the three counts, plus a top-level `total`. -/
structure Distribution where
  positive : Nat
  negative : Nat
  neutral : Nat
deriving DecidableEq, Repr

/-- The distribution response: `distRes.data.distribution` and
`distRes.data.total`. -/
structure DistResponse where
  distribution : Distribution
  total : Nat
deriving DecidableEq, Repr

/-- Outcomes of the three snapshot requests issued by `fetchData`:
distribution, hourly trend, and the most recent 50 posts.  `none` models a
rejected request (network error or bad response). -/
structure SnapshotResponses where
  dist : Option DistResponse
  trend : Option (List TrendPoint)
  posts : Option (List FrameData)
deriving DecidableEq, Repr

/-- The `fetchData` effect (Dashboard.jsx lines 32-69): three sequential
`await`s inside a single `try/catch`.  The distribution fetch populates
`distributionData`; the trend fetch populates `trendData`; the posts fetch
populates `recentPosts`; finally `metrics` is set from the distribution
response.  The first failing request throws, the `catch` logs it, and every
later statement of the block is skipped, so the corresponding sections keep
their defaults.  Nothing is retried. -/
def fetchData (r : SnapshotResponses) (s : DashboardState) : DashboardState :=
  match r.dist with
  | none => s
  | some dr =>
    let s1 := { s with
      distributionData :=
        distEntries dr.distribution.positive dr.distribution.negative
          dr.distribution.neutral }
    match r.trend with
    | none => s1
    | some tr =>
      let s2 := { s1 with trendData := tr }
      match r.posts with
      | none => s2
      | some ps =>
        { s2 with
          recentPosts := ps
          metrics := some
            { total := dr.total
              positive := dr.distribution.positive
              negative := dr.distribution.negative
              neutral := dr.distribution.neutral } }

/-- Phase of the WebSocket object currently held in `ws.current`. -/
inductive SockPhase
  | connecting
  | opened
  | closed
deriving DecidableEq, Repr

/-- The fixed reconnect delay: `setTimeout(connectWebSocket, 3000)`. -/
def reconnectDelayMs : Nat := 3000

/-- State of the connection subsystem: the displayed status, the phase of
the socket in `ws.current`, the pending reconnect timers (each recorded with
its delay), and whether the effect cleanup has run. -/
structure ConnSystem where
  status : ConnStatus
  sock : Option SockPhase
  timers : List Nat
  unmounted : Bool
deriving DecidableEq, Repr

/-- State right after mount: `connectWebSocket()` has created the first
socket (still connecting), status is the `useState('connecting')` default,
no timers pending. -/
def initialConn : ConnSystem :=
  { status := ConnStatus.connecting
    sock := some SockPhase.connecting
    timers := []
    unmounted := false }

/-- React drops `setState` calls on an unmounted component; `setTimeout` is
unaffected by unmounting. -/
def setStatus (c : ConnSystem) (v : ConnStatus) : ConnStatus :=
  if c.unmounted then c.status else v

/-- Effect of `onopen`: `setConnectionStatus('connected')`. -/
def openTarget (c : ConnSystem) : ConnSystem :=
  { c with sock := some SockPhase.opened
           status := setStatus c ConnStatus.connected }

/-- Effect of `onclose`: `setConnectionStatus('disconnected')` and
`setTimeout(connectWebSocket, 3000)` — unconditionally, also after the
cleanup closed the socket. -/
def closeTarget (c : ConnSystem) : ConnSystem :=
  { c with sock := some SockPhase.closed
           status := setStatus c ConnStatus.disconnected
           timers := reconnectDelayMs :: c.timers }

/-- Effect of a reconnect timer firing: `connectWebSocket()` replaces
`ws.current` with a fresh connecting socket.  It does not touch
`connectionStatus` (the source sets no status in `connectWebSocket`). -/
def fireTarget (c : ConnSystem) (rest : List Nat) : ConnSystem :=
  { c with timers := rest
           sock := some SockPhase.connecting }

/-- Effect of the effect cleanup (lines 108-110): it only calls
`ws.current.close()`; it clears no timer and detaches no handler.  The
socket's `onclose` then fires asynchronously (a separate `sockClose` step). -/
def unmountTarget (c : ConnSystem) : ConnSystem :=
  { c with unmounted := true }

/-- One step of the connection subsystem. -/
inductive ConnStep : ConnSystem → ConnSystem → Prop
  | sockOpen (c : ConnSystem) (h : c.sock = some SockPhase.connecting) :
      ConnStep c (openTarget c)
  | sockClose (c : ConnSystem) (ph : SockPhase) (h : c.sock = some ph)
      (hph : ph ≠ SockPhase.closed) :
      ConnStep c (closeTarget c)
  | timerFire (c : ConnSystem) (d : Nat) (rest : List Nat)
      (h : c.timers = d :: rest) :
      ConnStep c (fireTarget c rest)
  | unmount (c : ConnSystem) (h : c.unmounted = false) :
      ConnStep c (unmountTarget c)

/-- States of the connection subsystem reachable from mount. -/
inductive ConnReachable : ConnSystem → Prop
  | init : ConnReachable initialConn
  | next {c c' : ConnSystem} :
      ConnReachable c → ConnStep c c' → ConnReachable c'

/-- Number of live (not yet closed) sockets held in `ws.current`. -/
def liveCount (c : ConnSystem) : Nat :=
  match c.sock with
  | some SockPhase.connecting => 1
  | some SockPhase.opened => 1
  | _ => 0

/-- A minimal concrete post, used for concrete test inputs. -/
def mkPost (i : Nat) : Post :=
  { post_id := i
    author := "a"
    content := "c"
    source := "s"
    sentiment_label := "neutral"
    confidence_score := 1
    created_at := i }

/-- A `new_post` push frame carrying the post `mkPost i`. -/
def newPostFrame (i : Nat) : RawMsg :=
  RawMsg.frame "new_post" (FrameData.postData (mkPost i))

/-!
Helper lemmas about single handler steps.
-/

/-- One `onmessage` step never grows the feed past 50 entries. -/
theorem step_feed_bound (now : Nat) (raw : RawMsg) (s : DashboardState)
    (h : s.recentPosts.length ≤ 50) :
    (step now raw s).recentPosts.length ≤ 50 := by
  cases raw with
  | malformed => simpa [step, onmessage] using h
  | frame t d =>
    by_cases h1 : t = "new_post"
    · simp [step, onmessage, h1, List.length_take]
    · by_cases h2 : t = "metrics_update"
      · cases d <;> simpa [step, onmessage, h1, h2] using h
      · simpa [step, onmessage, h1, h2] using h

/-- Delivering any message sequence never grows the feed past 50 entries. -/
theorem applyFrames_feed_bound (evs : List (Nat × RawMsg)) (s : DashboardState)
    (h : s.recentPosts.length ≤ 50) :
    (applyFrames evs s).recentPosts.length ≤ 50 := by
  induction evs generalizing s with
  | nil => exact h
  | cons e rest ih =>
    obtain ⟨t, raw⟩ := e
    exact ih (step t raw s) (step_feed_bound t raw s h)

/-- The snapshot load leaves the feed empty or sets it to exactly the posts
response. -/
theorem fetchData_recentPosts (r : SnapshotResponses) (s : DashboardState) :
    (fetchData r s).recentPosts = s.recentPosts ∨
      r.posts = some (fetchData r s).recentPosts := by
  unfold fetchData
  cases hd : r.dist with
  | none => exact Or.inl rfl
  | some dr =>
    cases ht : r.trend with
    | none => exact Or.inl rfl
    | some tr =>
      cases hp : r.posts with
      | none => exact Or.inl rfl
      | some ps => exact Or.inr (by simp [hp])

/-- Claim C1: for every reachable ViewModel state after any sequence of
events applied to a state seeded by the snapshot — whose posts request
returns at most 50 posts (the `?limit=50` query) — the feed contains at most
50 entries: each `new_post` event prepends the carried post and truncates
the feed to the most recent 50 entries. -/
theorem c1_feed_bounded (r : SnapshotResponses) (t0 : Nat)
    (hbound : ∀ ps, r.posts = some ps → ps.length ≤ 50)
    (evs : List (Nat × RawMsg)) :
    (applyFrames evs (fetchData r (initialState t0))).recentPosts.length ≤ 50 := by
  apply applyFrames_feed_bound
  rcases fetchData_recentPosts r (initialState t0) with h | h
  · rw [h]
    simp [initialState]
  · exact hbound _ h

/-- Witness for C1: a concrete snapshot of 2 posts followed by a concrete
`new_post` event keeps the feed within the 50-entry bound. -/
theorem c1_feed_bounded_witness :
    (applyFrames [(1, newPostFrame 7)]
      (fetchData
        { dist := some { distribution := { positive := 1, negative := 0, neutral := 1 }, total := 2 }
          trend := some []
          posts := some [FrameData.postData (mkPost 1), FrameData.postData (mkPost 2)] }
        (initialState 0))).recentPosts.length ≤ 50 := by
  apply c1_feed_bounded
  intro ps h
  cases h
  decide

/-- The 60 timed `new_post` events of Scenario D, carrying posts 1 through
60 in order. -/
def scenarioD : List (Nat × RawMsg) :=
  (List.range 60).map (fun i => (i + 1, newPostFrame (i + 1)))

/-- The feed Scenario D must end with: posts 60 down to 11, newest first. -/
def scenarioDExpected : List FrameData :=
  (List.range 50).map (fun i => FrameData.postData (mkPost (60 - i)))

/-- Claim C2: applying `new_post` events E1 then E2 in that order leaves
E2's post ahead of E1's post (positions 0 and 1 of the feed); and 60
sequential `new_post` events on an initially empty feed leave exactly the 50
most recent posts in newest-first order, with the oldest 10 evicted. -/
theorem c2_feed_ordering :
    (∀ (s : DashboardState) (d1 d2 : FrameData) (t1 t2 : Nat),
      (step t2 (RawMsg.frame "new_post" d2)
          (step t1 (RawMsg.frame "new_post" d1) s)).recentPosts[0]? = some d2 ∧
      (step t2 (RawMsg.frame "new_post" d2)
          (step t1 (RawMsg.frame "new_post" d1) s)).recentPosts[1]? = some d1) ∧
    (applyFrames scenarioD (initialState 0)).recentPosts = scenarioDExpected := by
  constructor
  · intro s d1 d2 t1 t2
    constructor
    · simp [step, onmessage]
    · simp [step, onmessage]
  · decide

/-- Claim C3: a `metrics_update` event replaces `metrics` wholesale with the
carried snapshot, for every prior state (no incremental arithmetic against
the previous metrics); concretely, from metrics
`{positive:10, negative:5, neutral:5, total:20}` an update carrying
`{positive:12, negative:5, neutral:5, total:22}` yields total exactly 22,
not the hand-merged `{positive:22, negative:10, neutral:10, total:42}`. -/
theorem c3_metrics_wholesale :
    (∀ (s : DashboardState) (now : Nat) (m : Metrics),
      (onmessage now (RawMsg.frame "metrics_update" (FrameData.metricsData m)) s).1.metrics
        = some m) ∧
    ((step 1 (RawMsg.frame "metrics_update"
        (FrameData.metricsData { total := 22, positive := 12, negative := 5, neutral := 5 }))
        { initialState 0 with
          metrics := some { total := 20, positive := 10, negative := 5, neutral := 5 } }).metrics
      = some { total := 22, positive := 12, negative := 5, neutral := 5 } ∧
     (step 1 (RawMsg.frame "metrics_update"
        (FrameData.metricsData { total := 22, positive := 12, negative := 5, neutral := 5 }))
        { initialState 0 with
          metrics := some { total := 20, positive := 10, negative := 5, neutral := 5 } }).metrics
      ≠ some { total := 42, positive := 22, negative := 10, neutral := 10 }) := by
  refine ⟨?_, by decide, by decide⟩
  intro s now m
  simp [onmessage]

/-- Claim C4: whenever `metrics` originates from the initial snapshot (all
three requests succeeded, so the metrics baseline was set from the
distribution response) or from a single `metrics_update` payload, and the
server payload itself satisfies `positive + negative + neutral = total`,
the resulting state satisfies
`metrics.positive + metrics.negative + metrics.neutral = metrics.total`:
the client copies the payload and never hand-merges counts from distinct
sources. -/
theorem c4_metrics_sum :
    (∀ (r : SnapshotResponses) (s : DashboardState) (dr : DistResponse)
        (tr : List TrendPoint) (ps : List FrameData),
      r.dist = some dr → r.trend = some tr → r.posts = some ps →
      dr.distribution.positive + dr.distribution.negative + dr.distribution.neutral
        = dr.total →
      ∃ m, (fetchData r s).metrics = some m ∧
        m.positive + m.negative + m.neutral = m.total) ∧
    (∀ (s : DashboardState) (now : Nat) (m : Metrics),
      m.positive + m.negative + m.neutral = m.total →
      ∃ m2,
        (onmessage now (RawMsg.frame "metrics_update" (FrameData.metricsData m)) s).1.metrics
          = some m2 ∧
        m2.positive + m2.negative + m2.neutral = m2.total) := by
  constructor
  · intro r s dr tr ps hd ht hp hsum
    refine ⟨{ total := dr.total
              positive := dr.distribution.positive
              negative := dr.distribution.negative
              neutral := dr.distribution.neutral }, ?_, hsum⟩
    unfold fetchData
    rw [hd, ht, hp]
  · intro s now m hsum
    exact ⟨m, by simp [onmessage], hsum⟩

/-- Witness for C4: the sum invariant holds concretely after a full snapshot
load with a balanced distribution response, and after a concrete balanced
`metrics_update`. -/
theorem c4_metrics_sum_witness :
    (∃ m, (fetchData
        { dist := some { distribution := { positive := 1, negative := 2, neutral := 3 }, total := 6 }
          trend := some []
          posts := some [] }
        (initialState 0)).metrics = some m ∧
      m.positive + m.negative + m.neutral = m.total) ∧
    (∃ m2, (onmessage 9 (RawMsg.frame "metrics_update"
        (FrameData.metricsData { total := 6, positive := 1, negative := 2, neutral := 3 }))
        (initialState 0)).1.metrics = some m2 ∧
      m2.positive + m2.negative + m2.neutral = m2.total) := by
  exact ⟨c4_metrics_sum.1 _ (initialState 0) _ [] [] rfl rfl rfl (by decide),
    c4_metrics_sum.2 (initialState 0) 9 _ (by decide)⟩

/-- A concrete set of snapshot outcomes in which the distribution and posts
requests succeed but the trend request fails. -/
def trendFailureResponses : SnapshotResponses :=
  { dist := some { distribution := { positive := 1, negative := 2, neutral := 3 }, total := 6 }
    trend := none
    posts := some [FrameData.postData (mkPost 1)] }

/-- Counterexample to C7: the three snapshot reads are sequential `await`s
inside one `try/catch`, not independent.  When the trend request fails, the
posts request — which succeeds and carries one post — never has its result
stored: `recentPosts` is left at its empty default (and so is the metrics
baseline, set last), refuting "only that request's corresponding ViewModel
section is left at its empty default — sections whose requests succeed are
still populated". -/
theorem c7_counterexample :
    trendFailureResponses.posts = some [FrameData.postData (mkPost 1)] ∧
    (fetchData trendFailureResponses (initialState 0)).recentPosts = [] ∧
    (fetchData trendFailureResponses (initialState 0)).distributionData = distEntries 1 2 3 ∧
    (fetchData trendFailureResponses (initialState 0)).metrics
      = some { total := 0, positive := 0, negative := 0, neutral := 0 } := by
  decide

/-- Claim C7 (amended): the Snapshot Loader issues its three reads
sequentially inside a single guarded block.  On the first failure it logs
and aborts the rest of the block: that request's section and every later
section (trend after distribution, posts after trend, and the metrics
baseline, set last) are left at their empty defaults, while sections set
before the failure stay populated; no request is retried. -/
theorem c7_sequential_fetch :
    (∀ (r : SnapshotResponses) (s : DashboardState),
      r.dist = none → fetchData r s = s) ∧
    (∀ (r : SnapshotResponses) (s : DashboardState) (dr : DistResponse),
      r.dist = some dr → r.trend = none →
      fetchData r s = { s with
        distributionData := distEntries dr.distribution.positive
          dr.distribution.negative dr.distribution.neutral }) ∧
    (∀ (r : SnapshotResponses) (s : DashboardState) (dr : DistResponse)
        (tr : List TrendPoint),
      r.dist = some dr → r.trend = some tr → r.posts = none →
      fetchData r s = { s with
        distributionData := distEntries dr.distribution.positive
          dr.distribution.negative dr.distribution.neutral
        trendData := tr }) ∧
    (∀ (r : SnapshotResponses) (s : DashboardState) (dr : DistResponse)
        (tr : List TrendPoint) (ps : List FrameData),
      r.dist = some dr → r.trend = some tr → r.posts = some ps →
      fetchData r s = { s with
        distributionData := distEntries dr.distribution.positive
          dr.distribution.negative dr.distribution.neutral
        trendData := tr
        recentPosts := ps
        metrics := some { total := dr.total
                          positive := dr.distribution.positive
                          negative := dr.distribution.negative
                          neutral := dr.distribution.neutral } }) := by
  refine ⟨?_, ?_, ?_, ?_⟩
  · intro r s hd
    unfold fetchData
    rw [hd]
  · intro r s dr hd ht
    unfold fetchData
    rw [hd, ht]
  · intro r s dr tr hd ht hp
    unfold fetchData
    rw [hd, ht, hp]
  · intro r s dr tr ps hd ht hp
    unfold fetchData
    rw [hd, ht, hp]

/-- Witness for C7 (amended): the four cases evaluated at concrete request
outcomes. -/
theorem c7_sequential_fetch_witness :
    fetchData { dist := none, trend := none, posts := none } (initialState 0)
      = initialState 0 ∧
    fetchData trendFailureResponses (initialState 0)
      = { initialState 0 with distributionData := distEntries 1 2 3 } ∧
    fetchData
        { dist := some { distribution := { positive := 1, negative := 2, neutral := 3 }, total := 6 }
          trend := some []
          posts := none } (initialState 0)
      = { initialState 0 with distributionData := distEntries 1 2 3, trendData := [] } ∧
    fetchData
        { dist := some { distribution := { positive := 1, negative := 2, neutral := 3 }, total := 6 }
          trend := some []
          posts := some [] } (initialState 0)
      = { initialState 0 with
          distributionData := distEntries 1 2 3
          trendData := []
          recentPosts := []
          metrics := some { total := 6, positive := 1, negative := 2, neutral := 3 } } := by
  exact ⟨c7_sequential_fetch.1 _ _ rfl,
    c7_sequential_fetch.2.1 _ _ _ rfl rfl,
    c7_sequential_fetch.2.2.1 _ _ _ _ rfl rfl rfl,
    c7_sequential_fetch.2.2.2 _ _ _ _ _ rfl rfl rfl⟩

/-- A parsed push frame of a kind the reconciler does not accept. -/
def heartbeatFrame : RawMsg :=
  RawMsg.frame "heartbeat" (FrameData.postData (mkPost 1))

/-- Counterexample to C8: `setLastUpdate(new Date())` runs for every parsed
message, before the `message.type` branch.  A message of an unrecognized
kind is otherwise ignored (no feed, metrics or distribution change, no
error), yet it does update `lastUpdate` — refuting "lastUpdateAt is updated
to the receipt time if and only if the message is an accepted event". -/
theorem c8_counterexample :
    (onmessage 5 heartbeatFrame (initialState 0)).2 = none ∧
    (onmessage 5 heartbeatFrame (initialState 0)).1.recentPosts
      = (initialState 0).recentPosts ∧
    (onmessage 5 heartbeatFrame (initialState 0)).1.metrics
      = (initialState 0).metrics ∧
    (onmessage 5 heartbeatFrame (initialState 0)).1.distributionData
      = (initialState 0).distributionData ∧
    (onmessage 5 heartbeatFrame (initialState 0)).1.lastUpdate = 5 ∧
    ¬ (onmessage 5 heartbeatFrame (initialState 0)).1.lastUpdate
      = (initialState 0).lastUpdate := by
  decide

/-- Claim C8 (amended): `lastUpdateAt` is updated to the receipt time if and
only if the message parses: every parsed message updates it, including
messages of kinds other than `new_post` and `metrics_update`, which are
otherwise ignored (the update happens before the kind check), while an
unparseable message leaves the entire state, `lastUpdateAt` included,
unchanged. -/
theorem c8_lastUpdate_on_parse :
    (∀ (now : Nat) (t : String) (d : FrameData) (s : DashboardState),
      (onmessage now (RawMsg.frame t d) s).1.lastUpdate = now) ∧
    (∀ (now : Nat) (s : DashboardState),
      (onmessage now RawMsg.malformed s).1 = s) := by
  constructor
  · intro now t d s
    by_cases h1 : t = "new_post"
    · simp [onmessage, h1]
    · by_cases h2 : t = "metrics_update"
      · cases d <;> simp [onmessage, h1, h2]
      · simp [onmessage, h1, h2]
  · intro now s
    rfl

/-- Counterexample to C9: there is no `try/catch` around
`JSON.parse(event.data)`, so on a malformed payload the `onmessage` handler
itself throws — the parse error escapes the handler rather than being
handled, refuting "the handler does not fail". -/
theorem c9_counterexample :
    (onmessage 7 RawMsg.malformed (initialState 0)).2 = some JsError.parseError ∧
    ¬ (onmessage 7 RawMsg.malformed (initialState 0)).2 = none := by
  decide

/-- Claim C9 (amended): for every malformed push payload the message has no
effect on the state — no ViewModel field is mutated and `connectionStatus`
is unchanged, so nothing new is rendered to the user — but the handler
throws an uncaught parse exception (the throw is absorbed by the browser
event loop, so it is not fatal to the session). -/
theorem c9_malformed_dropped :
    ∀ (now : Nat) (s : DashboardState),
      (onmessage now RawMsg.malformed s).1 = s ∧
      (onmessage now RawMsg.malformed s).1.connectionStatus = s.connectionStatus ∧
      (onmessage now RawMsg.malformed s).2 = some JsError.parseError := by
  intro now s
  exact ⟨rfl, rfl, rfl⟩

/-- Claim C10: a `metrics_update` event leaves the feed and the trend
sequence unchanged — only `metrics` and the derived `distributionData` are
replaced; and no push event of any kind ever modifies the trend sequence,
which is written only by the initial snapshot load. -/
theorem c10_metrics_update_frame :
    (∀ (now : Nat) (s : DashboardState) (m : Metrics),
      (onmessage now (RawMsg.frame "metrics_update" (FrameData.metricsData m)) s).1.recentPosts
        = s.recentPosts ∧
      (onmessage now (RawMsg.frame "metrics_update" (FrameData.metricsData m)) s).1.trendData
        = s.trendData) ∧
    (∀ (now : Nat) (raw : RawMsg) (s : DashboardState),
      (onmessage now raw s).1.trendData = s.trendData) := by
  constructor
  · intro now s m
    constructor <;> simp [onmessage]
  · intro now raw s
    cases raw with
    | malformed => rfl
    | frame t d =>
      by_cases h1 : t = "new_post"
      · simp [onmessage, h1]
      · by_cases h2 : t = "metrics_update"
        · cases d <;> simp [onmessage, h1, h2]
        · simp [onmessage, h1, h2]

/-- Every step of the connection subsystem preserves its invariant: at most
one pending reconnect timer and one live socket in total, and every pending
timer was scheduled with the fixed 3000 ms delay. -/
theorem conn_invariant_step (c c2 : ConnSystem) (st : ConnStep c c2)
    (ih : c.timers.length + liveCount c ≤ 1 ∧ ∀ d ∈ c.timers, d = reconnectDelayMs) :
    c2.timers.length + liveCount c2 ≤ 1 ∧ ∀ d ∈ c2.timers, d = reconnectDelayMs := by
  cases st with
  | sockOpen h =>
    have hlive : liveCount c = 1 := by simp [liveCount, h]
    refine ⟨?_, ?_⟩
    · have hlen : c.timers.length = 0 := by omega
      simp [openTarget, liveCount, hlen]
    · simpa [openTarget] using ih.2
  | sockClose ph h hph =>
    have hlive : liveCount c = 1 := by
      cases ph with
      | connecting => simp [liveCount, h]
      | opened => simp [liveCount, h]
      | closed => exact absurd rfl hph
    have hlen : c.timers.length = 0 := by omega
    refine ⟨?_, ?_⟩
    · simp [closeTarget, liveCount, hlen]
    · intro d hd
      simp only [closeTarget, List.mem_cons] at hd
      rcases hd with hd | hd
      · exact hd
      · exact ih.2 d hd
  | timerFire d rest h =>
    have hlen : rest.length = 0 := by
      have h1 := ih.1
      rw [h] at h1
      simp only [List.length_cons] at h1
      omega
    refine ⟨?_, ?_⟩
    · simp [fireTarget, liveCount, hlen]
    · intro e he
      simp only [fireTarget] at he
      exact ih.2 e (by rw [h]; exact List.mem_cons_of_mem d he)
  | unmount h =>
    exact ⟨by simpa [unmountTarget, liveCount] using ih.1,
      by simpa [unmountTarget] using ih.2⟩

/-- Reachability version of the connection-subsystem invariant. -/
theorem conn_invariant (c : ConnSystem) (h : ConnReachable c) :
    c.timers.length + liveCount c ≤ 1 ∧ ∀ d ∈ c.timers, d = reconnectDelayMs := by
  induction h with
  | init => simp [initialConn, liveCount]
  | next hr st ih => exact conn_invariant_step _ _ st ih

/-- Counterexample to C5: after the channel closes mid-session and the fixed
3-second retry delay elapses, the timer fires and `connectWebSocket` starts
a fresh connection attempt — but `connectionStatus` is still
`disconnected`, not `connecting`: the source never sets `'connecting'`
after the initial `useState('connecting')`. -/
theorem c5_counterexample :
    ConnStep initialConn (closeTarget initialConn) ∧
    ConnStep (closeTarget initialConn) (fireTarget (closeTarget initialConn) []) ∧
    (closeTarget initialConn).status = ConnStatus.disconnected ∧
    (fireTarget (closeTarget initialConn) []).sock = some SockPhase.connecting ∧
    (fireTarget (closeTarget initialConn) []).status = ConnStatus.disconnected ∧
    ¬ (fireTarget (closeTarget initialConn) []).status = ConnStatus.connecting := by
  refine ⟨ConnStep.sockClose initialConn SockPhase.connecting rfl (by decide),
    ConnStep.timerFire (closeTarget initialConn) reconnectDelayMs [] rfl,
    by decide, by decide, by decide, by decide⟩

/-- Claim C5 (amended): when the push channel closes mid-session,
`connectionStatus` becomes `disconnected` immediately and exactly one
reconnect timer with the fixed 3000 ms delay is scheduled; the status stays
as it was (`disconnected`) when the timer fires and the reconnect attempt
starts, and becomes `connected` once a connection reopens.  In every
reachable state at most one reconnect timer is pending (also under rapid
close/reopen cycles) and every pending timer has the fixed delay — no
backoff growth; and whenever a timer is pending a retry step is enabled,
whatever the history — no retry-count ceiling. -/
theorem c5_reconnect_loop :
    (∀ c : ConnSystem, c.unmounted = false →
      (closeTarget c).status = ConnStatus.disconnected ∧
      (closeTarget c).timers = reconnectDelayMs :: c.timers) ∧
    (∀ c : ConnSystem, c.unmounted = false →
      (openTarget c).status = ConnStatus.connected) ∧
    (∀ (c : ConnSystem) (rest : List Nat),
      (fireTarget c rest).status = c.status ∧
      (fireTarget c rest).sock = some SockPhase.connecting) ∧
    (∀ c : ConnSystem, ConnReachable c →
      c.timers.length ≤ 1 ∧ ∀ d ∈ c.timers, d = reconnectDelayMs) ∧
    (∀ c : ConnSystem, c.timers ≠ [] →
      ∃ c2, ConnStep c c2 ∧ c2.sock = some SockPhase.connecting) := by
  refine ⟨?_, ?_, ?_, ?_, ?_⟩
  · intro c hu
    exact ⟨by simp [closeTarget, setStatus, hu], rfl⟩
  · intro c hu
    simp [openTarget, setStatus, hu]
  · intro c rest
    exact ⟨rfl, rfl⟩
  · intro c hc
    have h := conn_invariant c hc
    exact ⟨by omega, h.2⟩
  · intro c hne
    cases ht : c.timers with
    | nil => exact absurd ht hne
    | cons d rest =>
      exact ⟨fireTarget c rest, ConnStep.timerFire c d rest ht, rfl⟩

/-- Witness for C5 (amended): each conjunct evaluated on the concrete
mid-session trace mount → close. -/
theorem c5_reconnect_loop_witness :
    ((closeTarget initialConn).status = ConnStatus.disconnected ∧
      (closeTarget initialConn).timers = reconnectDelayMs :: initialConn.timers) ∧
    (openTarget initialConn).status = ConnStatus.connected ∧
    ((fireTarget (closeTarget initialConn) []).status
        = (closeTarget initialConn).status ∧
      (fireTarget (closeTarget initialConn) []).sock = some SockPhase.connecting) ∧
    ((closeTarget initialConn).timers.length ≤ 1 ∧
      ∀ d ∈ (closeTarget initialConn).timers, d = reconnectDelayMs) ∧
    (∃ c2, ConnStep (closeTarget initialConn) c2 ∧
      c2.sock = some SockPhase.connecting) := by
  have hreach : ConnReachable (closeTarget initialConn) :=
    ConnReachable.next ConnReachable.init
      (ConnStep.sockClose initialConn SockPhase.connecting rfl (by decide))
  exact ⟨c5_reconnect_loop.1 initialConn rfl,
    c5_reconnect_loop.2.1 initialConn rfl,
    c5_reconnect_loop.2.2.1 (closeTarget initialConn) [],
    c5_reconnect_loop.2.2.2.1 (closeTarget initialConn) hreach,
    c5_reconnect_loop.2.2.2.2 (closeTarget initialConn) (by decide)⟩

/-- Claim C6 is a code bug; this theorem evaluates the code at the failing
input.  The effect cleanup only calls `ws.current.close()`: it clears no
pending timer and the `onclose` handler schedules
`setTimeout(connectWebSocket, 3000)` unconditionally.  So unmounting while
the socket is live lets `onclose` fire afterwards, leaving a pending
3-second reconnect timer after teardown, and when it fires
`connectWebSocket` opens a fresh socket — a further `open()` after
teardown, contradicting "after teardown, no further open() attempts ever
occur". -/
theorem c6_reconnect_after_teardown :
    ConnStep initialConn (unmountTarget initialConn) ∧
    ConnStep (unmountTarget initialConn) (closeTarget (unmountTarget initialConn)) ∧
    ConnStep (closeTarget (unmountTarget initialConn))
      (fireTarget (closeTarget (unmountTarget initialConn)) []) ∧
    (closeTarget (unmountTarget initialConn)).unmounted = true ∧
    (closeTarget (unmountTarget initialConn)).timers = [reconnectDelayMs] ∧
    (fireTarget (closeTarget (unmountTarget initialConn)) []).unmounted = true ∧
    (fireTarget (closeTarget (unmountTarget initialConn)) []).sock
      = some SockPhase.connecting := by
  refine ⟨ConnStep.unmount initialConn rfl,
    ConnStep.sockClose (unmountTarget initialConn) SockPhase.connecting rfl (by decide),
    ConnStep.timerFire (closeTarget (unmountTarget initialConn)) reconnectDelayMs [] rfl,
    by decide, by decide, by decide, by decide⟩

end SentimentPlatform
